import Mathlib

/-!
# Verification of the Charger menu state machine and LCD text renderer

Shallow embedding of the Charger firmware's Menu module (Menu.c / Menu.h)
and LCD module (LCD.c), written from the C source.  Machine integers
(`uint8_t`) are modelled as `Nat` with explicit `% 256` at the points where
the C code stores into an 8-bit variable; buffers are modelled as total
functions from indices to byte values so that out-of-range writes are
observable.
-/

namespace Charger

/-! ## Menu state machine (Menu.c, Menu.h)

`enum E_MenuStates`: PANEL_VIEW = 0, BATTERY_VIEW = 1, MENU_VIEW_1 = 2,
MENU_VIEW_2 = 3, MENU_VIEW_3 = 4, CALIBRATION_VIEW_1 = 5,
CALIBRATION_VIEW_2 = 6, NO_MENU = 7.

`enum E_ButtonClicks`: NO_CLICK = 0, SHORT_CLICK = 1, LONG_CLICK = 2.

Menu task codes (Menu.h): MENU_SAVE = 10, MENU_CANCEL = 11,
MENU_NO_ACTION = 12, MENU_MEASURE_1 = 13, MENU_MEASURE_2 = 14.
-/

/-- The mutable part of `T_MenuSystem` that drives the state machine:
`menuState`, `currentSelection` and `previousMenu` (all 8-bit in C, here
`Nat`; reachable values stay far below 256).  The text-field tables of
`T_MenuSystem` are modelled separately (see `Menu_FloatToCharArray` and the
LCD section) because `Menu_PrimaryAction` / `Menu_SecondaryAction` never
read them. -/
structure MenuSt where
  menuState : Nat
  currentSelection : Nat
  previousMenu : Nat
deriving DecidableEq, Repr

/-- `Menu_PrimaryAction` (Menu.c lines 73-143): the "select" action taken on
a short click.  Returns the new state paired with the task code for the main
program, which is always `MENU_NO_ACTION` (12).  `currentSelection++` on the
`uint8_t` field is modelled as `(sel + 1) % 256`. -/
def Menu_PrimaryAction (s : MenuSt) : MenuSt × Nat :=
  let s1 :=
    if s.menuState = 0 then { s with menuState := 1 }
    else if s.menuState = 1 then { s with menuState := 0 }
    else if s.menuState = 2 ∨ s.menuState = 3 then
      let sel := (s.currentSelection + 1) % 256
      if sel > 3 then { s with menuState := s.menuState + 1, currentSelection := 0 }
      else { s with currentSelection := sel }
    else if s.menuState = 4 then
      let sel := (s.currentSelection + 1) % 256
      if sel > 3 then { s with menuState := 2, currentSelection := 0 }
      else { s with currentSelection := sel }
    else if s.menuState = 5 ∨ s.menuState = 6 then
      let sel := (s.currentSelection + 1) % 256
      if sel > 1 then { s with currentSelection := 0 }
      else { s with currentSelection := sel }
    else s
  (s1, 12)

/-- `Menu_SecondaryAction` (Menu.c lines 149-231): the "perform a task"
action taken on a long click.  First records `previousMenu := menuState`,
then dispatches on the current view.  In the `MENU_VIEW_1/2/3` case the
`uint8_t result` is `((menuState - 2) * 4) + currentSelection` taken mod
256. -/
def Menu_SecondaryAction (s : MenuSt) : MenuSt × Nat :=
  let s0 := { s with previousMenu := s.menuState }
  if s0.menuState = 0 ∨ s0.menuState = 1 then
    ({ s0 with menuState := 2, currentSelection := 0 }, 12)
  else if s0.menuState = 2 ∨ s0.menuState = 3 ∨ s0.menuState = 4 then
    let result := ((s0.menuState - 2) * 4 + s0.currentSelection) % 256
    let s1 := { s0 with currentSelection := 0 }
    if result = 10 ∨ result = 11 then ({ s1 with menuState := 0 }, result)
    else ({ s1 with menuState := 5 }, result)
  else if s0.menuState = 5 then
    if s0.currentSelection = 0 then ({ s0 with menuState := 2 }, 12)
    else ({ s0 with menuState := 6 }, 13)
  else if s0.menuState = 6 then
    if s0.currentSelection = 0 then ({ s0 with menuState := 5 }, 12)
    else ({ s0 with menuState := 2 }, 14)
  else (s0, 12)

/-- `Menu_HandleButtonState` (Menu.c lines 237-251): SHORT_CLICK (1) runs the
primary action, LONG_CLICK (2) the secondary action, NO_CLICK and anything
else returns `MENU_NO_ACTION` leaving the state untouched. -/
def Menu_HandleButtonState (s : MenuSt) (buttonState : Nat) : MenuSt × Nat :=
  if buttonState = 1 then Menu_PrimaryAction s
  else if buttonState = 2 then Menu_SecondaryAction s
  else (s, 12)

/-- The state-machine effect of `Menu_UpdateTextFields` (Menu.c lines
361-367): when `menuState` is `NO_MENU` (7) it is set to `PANEL_VIEW` (0).
The rest of that function only rewrites the updatable char tables and never
touches `menuState`, `currentSelection` or `previousMenu`. -/
def Menu_UpdateTextFieldsState (s : MenuSt) : MenuSt :=
  if s.menuState = 7 then { s with menuState := 0 } else s

/-- `Menu_UpdateView` (Menu.c lines 449-456) restricted to its state-machine
effect: handle the button, then run the text-field update (whose only state
effect is the `NO_MENU → PANEL_VIEW` fixup), and return the task code. -/
def Menu_UpdateView (s : MenuSt) (buttonState : Nat) : MenuSt × Nat :=
  let r := Menu_HandleButtonState s buttonState
  (Menu_UpdateTextFieldsState r.1, r.2)

/-- The initial menu system from `main` (Charger.c):
`T_MenuSystem menu = { NO_MENU, 0, NO_MENU, MENU_VIEWS, 0, 0 }`. -/
def menuInit : MenuSt := ⟨7, 0, 7⟩

/-- Run a sequence of button events through `Menu_UpdateView` from a given
state, keeping only the state. -/
def menuRunFrom (s : MenuSt) (events : List Nat) : MenuSt :=
  events.foldl (fun t b => (Menu_UpdateView t b).1) s

/-- Run a sequence of button events from the initial state. -/
def menuRun (events : List Nat) : MenuSt :=
  menuRunFrom menuInit events

/-- Largest legal selection index of a view, per the specification: the
three calibration menus allow selections 0-3, the two calibration channel
views allow 0-1, every other view never shows a selection beyond 3. -/
def selMax (menuState : Nat) : Nat :=
  if menuState = 5 ∨ menuState = 6 then 1 else 3

end Charger

namespace Charger

/-! ## State-machine lemmas -/

/-- The selection bound invariant: the current selection never exceeds the
active view's selectable range. -/
def menuInv (s : MenuSt) : Prop :=
  s.currentSelection ≤ selMax s.menuState

instance (s : MenuSt) : Decidable (menuInv s) := by
  unfold menuInv; infer_instance

lemma selMax_le_three (m : Nat) : selMax m ≤ 3 := by
  unfold selMax; split <;> omega

lemma menuInv_primary (s : MenuSt) (h : menuInv s) :
    menuInv (Menu_PrimaryAction s).1 := by
  obtain ⟨ms, sel, pm⟩ := s
  unfold menuInv selMax Menu_PrimaryAction at *
  simp only at *
  split_ifs at * <;> simp_all <;> omega

lemma menuInv_secondary (s : MenuSt) (h : menuInv s) :
    menuInv (Menu_SecondaryAction s).1 := by
  obtain ⟨ms, sel, pm⟩ := s
  unfold menuInv selMax Menu_SecondaryAction at *
  simp only at *
  split_ifs at * <;> simp_all <;> omega

lemma menuInv_fixup (s : MenuSt) (h : menuInv s) :
    menuInv (Menu_UpdateTextFieldsState s) := by
  obtain ⟨ms, sel, pm⟩ := s
  unfold menuInv selMax Menu_UpdateTextFieldsState at *
  split_ifs at * <;> simp_all

lemma fixup_menuState_ne_seven (s : MenuSt) :
    (Menu_UpdateTextFieldsState s).menuState ≠ 7 := by
  obtain ⟨ms, sel, pm⟩ := s
  unfold Menu_UpdateTextFieldsState
  split_ifs <;> simp_all

lemma menuInv_step (s : MenuSt) (b : Nat) (h : menuInv s) :
    menuInv (Menu_UpdateView s b).1 := by
  unfold Menu_UpdateView Menu_HandleButtonState
  split_ifs with h1 h2
  · exact menuInv_fixup _ (menuInv_primary s h)
  · exact menuInv_fixup _ (menuInv_secondary s h)
  · exact menuInv_fixup _ h

lemma menuInv_runFrom (s : MenuSt) (evs : List Nat) (h : menuInv s) :
    menuInv (menuRunFrom s evs) := by
  induction evs generalizing s with
  | nil => exact h
  | cons e es ih =>
    exact ih _ (menuInv_step s e h)

end Charger

namespace Charger

/-! ## Claims about the menu state machine -/

/-- C1: From the initial state (`NO_MENU`, selection 0), the call sequence
NoClick, LongClick, ShortClick×3, LongClick, ShortClick, LongClick yields:
PanelView after call 1; CalibMenu1 with selection 0 after call 2;
selection 3 after the three ShortClicks; the next LongClick returns task
code 3 and moves to CalibChannel1; the final ShortClick-then-LongClick
returns task `MENU_MEASURE_1` (13) and moves to CalibChannel2.  The state
transitions are independent of the measurement vector and calibration
context, which `Menu_PrimaryAction`/`Menu_SecondaryAction` never read. -/
theorem menu_concrete_scenario :
    (menuRun [0]).menuState = 0 ∧
    (menuRun [0, 2]).menuState = 2 ∧ (menuRun [0, 2]).currentSelection = 0 ∧
    (menuRun [0, 2, 1, 1, 1]).menuState = 2 ∧
    (menuRun [0, 2, 1, 1, 1]).currentSelection = 3 ∧
    (Menu_UpdateView (menuRun [0, 2, 1, 1, 1]) 2).2 = 3 ∧
    (menuRun [0, 2, 1, 1, 1, 2]).menuState = 5 ∧
    (Menu_UpdateView (menuRun [0, 2, 1, 1, 1, 2, 1]) 2).2 = 13 ∧
    (menuRun [0, 2, 1, 1, 1, 2, 1, 2]).menuState = 6 := by
  decide

/-- C2 counterexample: the state `⟨CALIBRATION_VIEW_2, selection 1,
previous 5⟩` is reachable (by NoClick, LongClick, LongClick, ShortClick,
LongClick from the initial state), and a secondary event there returns
`MENU_MEASURE_2` (14) but moves to `MENU_VIEW_1` (CalibMenu1, state 2) —
not to `PANEL_VIEW` (0) as the claim states. -/
theorem calibChannel2_confirm_goes_to_calibMenu1 :
    menuRun [0, 2, 2, 1, 2] = ⟨6, 1, 5⟩ ∧
    (Menu_UpdateView ⟨6, 1, 5⟩ 2).2 = 14 ∧
    (Menu_UpdateView ⟨6, 1, 5⟩ 2).1.menuState = 2 ∧
    (Menu_UpdateView ⟨6, 1, 5⟩ 2).1.menuState ≠ 0 := by
  decide

/-- C2 (amended): in state CalibChannel2 (6), a secondary event with
selection 0 moves back to CalibChannel1 (5) returning `MENU_NO_ACTION`
(12); with selection ≠ 0 it moves to CalibMenu1 (`MENU_VIEW_1`, 2) — not
PanelView — and returns `MENU_MEASURE_2` (14), for every state with
`menuState = 6`. -/
theorem calibChannel2_secondary_behavior (s : MenuSt) (h : s.menuState = 6) :
    (s.currentSelection = 0 →
      (Menu_UpdateView s 2).1.menuState = 5 ∧ (Menu_UpdateView s 2).2 = 12) ∧
    (s.currentSelection ≠ 0 →
      (Menu_UpdateView s 2).1.menuState = 2 ∧ (Menu_UpdateView s 2).2 = 14) := by
  obtain ⟨ms, sel, pm⟩ := s
  simp only at h
  subst h
  unfold Menu_UpdateView Menu_HandleButtonState Menu_SecondaryAction
    Menu_UpdateTextFieldsState
  split_ifs at * <;> simp_all

/-- Witness for C2's amended theorem at the concrete state ⟨6, 1, 5⟩. -/
theorem calibChannel2_secondary_behavior_witness :
    ((⟨6, 1, 5⟩ : MenuSt).currentSelection = 0 →
      (Menu_UpdateView ⟨6, 1, 5⟩ 2).1.menuState = 5 ∧
      (Menu_UpdateView ⟨6, 1, 5⟩ 2).2 = 12) ∧
    ((⟨6, 1, 5⟩ : MenuSt).currentSelection ≠ 0 →
      (Menu_UpdateView ⟨6, 1, 5⟩ 2).1.menuState = 2 ∧
      (Menu_UpdateView ⟨6, 1, 5⟩ 2).2 = 14) :=
  calibChannel2_secondary_behavior ⟨6, 1, 5⟩ (by decide)

/-- C3: in states `MENU_VIEW_1/2/3` (2-4) with selection 0-3, a secondary
event returns the task `(menuState - 2) * 4 + selection`, a value in 0-11,
resets the selection to 0, and moves to `CALIBRATION_VIEW_1` (5) for tasks
0-9 and to `PANEL_VIEW` (0) for tasks 10 (`MENU_SAVE`) and 11
(`MENU_CANCEL`). -/
theorem calibMenu_secondary_task (s : MenuSt)
    (hms : 2 ≤ s.menuState) (hms2 : s.menuState ≤ 4)
    (hsel : s.currentSelection ≤ 3) :
    (Menu_UpdateView s 2).2 = (s.menuState - 2) * 4 + s.currentSelection ∧
    (s.menuState - 2) * 4 + s.currentSelection ≤ 11 ∧
    (Menu_UpdateView s 2).1.currentSelection = 0 ∧
    ((s.menuState - 2) * 4 + s.currentSelection ≤ 9 →
      (Menu_UpdateView s 2).1.menuState = 5) ∧
    (10 ≤ (s.menuState - 2) * 4 + s.currentSelection →
      (Menu_UpdateView s 2).1.menuState = 0) := by
  obtain ⟨ms, sel, pm⟩ := s
  simp only at *
  unfold Menu_UpdateView Menu_HandleButtonState Menu_SecondaryAction
    Menu_UpdateTextFieldsState
  interval_cases ms <;> interval_cases sel <;> simp

/-- Witness for C3 at state ⟨4, 3, 0⟩ (menu 3, selection 3: Cancel). -/
theorem calibMenu_secondary_task_witness :
    (Menu_UpdateView ⟨4, 3, 0⟩ 2).2 =
      ((⟨4, 3, 0⟩ : MenuSt).menuState - 2) * 4 +
        (⟨4, 3, 0⟩ : MenuSt).currentSelection ∧
    ((⟨4, 3, 0⟩ : MenuSt).menuState - 2) * 4 +
        (⟨4, 3, 0⟩ : MenuSt).currentSelection ≤ 11 ∧
    (Menu_UpdateView ⟨4, 3, 0⟩ 2).1.currentSelection = 0 ∧
    (((⟨4, 3, 0⟩ : MenuSt).menuState - 2) * 4 +
        (⟨4, 3, 0⟩ : MenuSt).currentSelection ≤ 9 →
      (Menu_UpdateView ⟨4, 3, 0⟩ 2).1.menuState = 5) ∧
    (10 ≤ ((⟨4, 3, 0⟩ : MenuSt).menuState - 2) * 4 +
        (⟨4, 3, 0⟩ : MenuSt).currentSelection →
      (Menu_UpdateView ⟨4, 3, 0⟩ 2).1.menuState = 0) :=
  calibMenu_secondary_task ⟨4, 3, 0⟩ (by decide) (by decide) (by decide)

/-- C4: after any sequence of button events from the initial state the
selection index is at most 3, and within the active view's selectable
range (`selMax`): at most 3 in the calibration menus, at most 1 in the
calibration channel views. -/
theorem selection_always_in_range (events : List Nat) :
    (menuRun events).currentSelection ≤ 3 ∧
    (menuRun events).currentSelection ≤ selMax (menuRun events).menuState := by
  have h : menuInv (menuRun events) := menuInv_runFrom menuInit events (by decide)
  exact ⟨le_trans h (selMax_le_three _), h⟩

/-- C9: whatever the button event of the very first `Menu_UpdateView` call,
the view afterwards is `PANEL_VIEW` (0); and no `Menu_UpdateView` call ever
leaves the machine in `NO_MENU` (7), from any state whatsoever. -/
theorem noView_only_before_first_update (s : MenuSt) (b : Nat) :
    (Menu_UpdateView menuInit b).1.menuState = 0 ∧
    (Menu_UpdateView s b).1.menuState ≠ 7 := by
  constructor
  · by_cases hb1 : b = 1
    · subst hb1; decide
    · by_cases hb2 : b = 2
      · subst hb2; decide
      · unfold Menu_UpdateView Menu_HandleButtonState
        rw [if_neg hb1, if_neg hb2]
        decide
  · exact fixup_menuState_ne_seven (Menu_HandleButtonState s b).1

end Charger

namespace Charger

/-! ## Float formatting into the live text slots (Menu.c)

`Menu_FloatToCharArray` (Menu.c lines 272-308) receives a `float *` and
starts with `unsigned int newValue = (unsigned int)((*value) * 100)`.  The
embedding takes that already-truncated unsigned value as its argument; the
claims quantify over it.  The eight-byte `char` array is modelled as a
total function `Int → Nat` because the write index `i` is an `int8_t` that
can go negative for large values, and frame claims must see every write. -/

/-- Pointwise update of an `Int`-indexed byte table. -/
def updInt (a : Int → Nat) (i : Int) (v : Nat) : Int → Nat :=
  fun j => if j = i then v else a j

/-- The `while(newValue > 0)` digit loop of `Menu_FloatToCharArray`:
write `newValue % 10 + '0'` at index `i`, divide by 10, decrement `i`.
Structural fuel equal to the starting value is always enough, since the
value loses a digit (and the fuel only one unit) per iteration. -/
def writeDigitsAux : Nat → Nat → Int → (Int → Nat) → ((Int → Nat) × Int)
  | 0, _, i, a => (a, i)
  | fuel + 1, n, i, a =>
    if n = 0 then (a, i)
    else writeDigitsAux fuel (n / 10) (i - 1) (updInt a i (n % 10 + 48))

/-- The digit loop, at its natural fuel. -/
def writeDigits (n : Nat) (i : Int) (a : Int → Nat) : (Int → Nat) × Int :=
  writeDigitsAux n n i a

/-- The `while(i >= 0) charArray[i--] = ' '` padding loop, unrolled on the
nonnegative part of `i`: writes 32 at indices `i, i-1, …, 0`. -/
def fillSpacesNat (a : Int → Nat) : Nat → (Int → Nat)
  | 0 => updInt a 0 32
  | n + 1 => fillSpacesNat (updInt a (Int.ofNat (n + 1)) 32) n

/-- The padding loop including the already-negative entry case. -/
def fillSpaces (a : Int → Nat) (i : Int) : Int → Nat :=
  match i with
  | Int.ofNat n => fillSpacesNat a n
  | Int.negSucc _ => a

/-- `Menu_FloatToCharArray` (Menu.c lines 272-308) on the truncated value
`newValue`: decimals at indices 5 and 4, a comma at 3, then either a lone
'0' at index 2 (value below 1) or the remaining digits emitted low-to-high
from index 2 downwards, and spaces over whatever indices down to 0 are
left. -/
def Menu_FloatToCharArray (newValue : Nat) (charArray : Int → Nat) : Int → Nat :=
  let a5 := updInt charArray 5 (newValue % 10 + 48)
  let v1 := newValue / 10
  let a4 := updInt a5 4 (v1 % 10 + 48)
  let v2 := v1 / 10
  let a3 := updInt a4 3 44
  if v2 = 0 then fillSpaces (updInt a3 2 48) 1
  else
    let r := writeDigits v2 2 a3
    fillSpaces r.1 r.2

/-- One iteration of the `PANEL_VIEW` loop of `Menu_UpdateTextFields`
(Menu.c lines 381-388): format measurement `n` into slot `ch`'s table, then
store 'V' (86) at index 6 for even channels and 'A' (65) for odd ones. -/
def Menu_UpdateTextFields_panelSlot (ch n : Nat) (table : Int → Nat) : Int → Nat :=
  updInt (Menu_FloatToCharArray n table) 6 (if ch % 2 = 0 then 86 else 65)

/-- A concrete table used by witnesses. -/
def sampleTable : Int → Nat :=
  fun _ => 7

lemma writeDigitsAux_zero (fuel : Nat) (i : Int) (a : Int → Nat) :
    writeDigitsAux fuel 0 i a = (a, i) := by
  cases fuel <;> simp [writeDigitsAux]

lemma writeDigitsAux_step (fuel n : Nat) (i : Int) (a : Int → Nat) (h : n ≠ 0) :
    writeDigitsAux (fuel + 1) n i a =
      writeDigitsAux fuel (n / 10) (i - 1) (updInt a i (n % 10 + 48)) := by
  simp [writeDigitsAux, h]

lemma writeDigits_lt10 (n : Nat) (i : Int) (a : Int → Nat)
    (h1 : n ≠ 0) (h2 : n < 10) :
    writeDigits n i a = (updInt a i (n % 10 + 48), i - 1) := by
  obtain ⟨m, rfl⟩ : ∃ m, n = m + 1 := ⟨n - 1, by omega⟩
  rw [writeDigits, writeDigitsAux_step m (m + 1) i a h1]
  rw [Nat.div_eq_of_lt h2, writeDigitsAux_zero]

lemma writeDigits_lt100 (n : Nat) (i : Int) (a : Int → Nat)
    (h1 : 10 ≤ n) (h2 : n < 100) :
    writeDigits n i a =
      (updInt (updInt a i (n % 10 + 48)) (i - 1) (n / 10 % 10 + 48), i - 2) := by
  obtain ⟨m, rfl⟩ : ∃ m, n = m + 2 := ⟨n - 2, by omega⟩
  rw [writeDigits, writeDigitsAux_step (m + 1) (m + 2) i a (by omega)]
  rw [writeDigitsAux_step m ((m + 2) / 10) (i - 1) _ (by omega)]
  rw [Nat.div_eq_of_lt (by omega : (m + 2) / 10 < 10)]
  rw [writeDigitsAux_zero]
  have e1 : (i - 1) - 1 = i - 2 := by ring
  rw [e1]

lemma writeDigits_lt1000 (n : Nat) (i : Int) (a : Int → Nat)
    (h1 : 100 ≤ n) (h2 : n < 1000) :
    writeDigits n i a =
      (updInt (updInt (updInt a i (n % 10 + 48)) (i - 1) (n / 10 % 10 + 48))
        (i - 2) (n / 100 % 10 + 48), i - 3) := by
  obtain ⟨m, rfl⟩ : ∃ m, n = m + 3 := ⟨n - 3, by omega⟩
  rw [writeDigits, writeDigitsAux_step (m + 2) (m + 3) i a (by omega)]
  rw [writeDigitsAux_step (m + 1) ((m + 3) / 10) (i - 1) _ (by omega)]
  rw [writeDigitsAux_step m ((m + 3) / 10 / 10) ((i - 1) - 1) _ (by omega)]
  have hdd : (m + 3) / 10 / 10 = (m + 3) / 100 := by rw [Nat.div_div_eq_div_mul]
  rw [hdd]
  have h0 : (m + 3) / 100 / 10 = 0 := Nat.div_eq_of_lt (by omega)
  rw [h0, writeDigitsAux_zero]
  have e1 : (i - 1) - 1 = i - 2 := by ring
  rw [e1]
  have e2 : (i - 2) - 1 = i - 3 := by ring
  rw [e2]

lemma fillSpaces_one (a : Int → Nat) :
    fillSpaces a 1 = updInt (updInt a 1 32) 0 32 := rfl

lemma fillSpaces_zero (a : Int → Nat) :
    fillSpaces a 0 = updInt a 0 32 := rfl

lemma fillSpaces_negOne (a : Int → Nat) :
    fillSpaces a (-1) = a := rfl

lemma FTCA_eq_of_small (n : Nat) (a : Int → Nat) (h : n / 10 / 10 = 0) :
    Menu_FloatToCharArray n a =
      updInt (updInt (updInt (updInt (updInt (updInt a 5 (n % 10 + 48))
        4 (n / 10 % 10 + 48)) 3 44) 2 48) 1 32) 0 32 := by
  unfold Menu_FloatToCharArray
  rw [if_pos h, fillSpaces_one]

lemma FTCA_eq_of_one_digit (n : Nat) (a : Int → Nat)
    (h1 : n / 10 / 10 ≠ 0) (h2 : n / 10 / 10 < 10) :
    Menu_FloatToCharArray n a =
      updInt (updInt (updInt (updInt (updInt (updInt a 5 (n % 10 + 48))
        4 (n / 10 % 10 + 48)) 3 44) 2 (n / 10 / 10 % 10 + 48)) 1 32) 0 32 := by
  unfold Menu_FloatToCharArray
  rw [if_neg h1, writeDigits_lt10 _ _ _ h1 h2]
  have e : (2 : Int) - 1 = 1 := by norm_num
  rw [e, fillSpaces_one]

lemma FTCA_eq_of_two_digits (n : Nat) (a : Int → Nat)
    (h1 : 10 ≤ n / 10 / 10) (h2 : n / 10 / 10 < 100) :
    Menu_FloatToCharArray n a =
      updInt (updInt (updInt (updInt (updInt (updInt a 5 (n % 10 + 48))
        4 (n / 10 % 10 + 48)) 3 44) 2 (n / 10 / 10 % 10 + 48))
        1 (n / 10 / 10 / 10 % 10 + 48)) 0 32 := by
  unfold Menu_FloatToCharArray
  rw [if_neg (by omega), writeDigits_lt100 _ _ _ h1 h2]
  have e1 : (2 : Int) - 1 = 1 := by norm_num
  have e2 : (2 : Int) - 2 = 0 := by norm_num
  rw [e1, e2, fillSpaces_zero]

lemma FTCA_eq_of_three_digits (n : Nat) (a : Int → Nat)
    (h1 : 100 ≤ n / 10 / 10) (h2 : n / 10 / 10 < 1000) :
    Menu_FloatToCharArray n a =
      updInt (updInt (updInt (updInt (updInt (updInt a 5 (n % 10 + 48))
        4 (n / 10 % 10 + 48)) 3 44) 2 (n / 10 / 10 % 10 + 48))
        1 (n / 10 / 10 / 10 % 10 + 48)) 0 (n / 10 / 10 / 100 % 10 + 48) := by
  unfold Menu_FloatToCharArray
  rw [if_neg (by omega), writeDigits_lt1000 _ _ _ h1 h2]
  have e1 : (2 : Int) - 1 = 1 := by norm_num
  have e2 : (2 : Int) - 2 = 0 := by norm_num
  have e3 : (2 : Int) - 3 = -1 := by norm_num
  rw [e1, e2, e3, fillSpaces_negOne]

end Charger

namespace Charger

/-! ## Claims about the measurement formatter -/

/-- C8: for every truncated value `n = trunc(v * 100)` with `v < 100`
(so `n < 10000`), the live-slot text has the two low digits of `n` at
indices 5 and 4, a comma (44) at 3, the digits of `n / 100` right-aligned
ending at index 2 (a lone '0' there when `n / 100 = 0`), spaces (32) on the
remaining leading indices, and the unit letter 'V' (86) for even channel
indices, 'A' (65) for odd ones, at index 6. -/
theorem measurement_text_format (ch n : Nat) (hn : n < 10000) (a : Int → Nat) :
    Menu_UpdateTextFields_panelSlot ch n a 5 = n % 10 + 48 ∧
    Menu_UpdateTextFields_panelSlot ch n a 4 = n / 10 % 10 + 48 ∧
    Menu_UpdateTextFields_panelSlot ch n a 3 = 44 ∧
    (n / 100 = 0 → Menu_UpdateTextFields_panelSlot ch n a 2 = 48 ∧
      Menu_UpdateTextFields_panelSlot ch n a 1 = 32 ∧
      Menu_UpdateTextFields_panelSlot ch n a 0 = 32) ∧
    (0 < n / 100 → n / 100 < 10 →
      Menu_UpdateTextFields_panelSlot ch n a 2 = n / 100 + 48 ∧
      Menu_UpdateTextFields_panelSlot ch n a 1 = 32 ∧
      Menu_UpdateTextFields_panelSlot ch n a 0 = 32) ∧
    (10 ≤ n / 100 →
      Menu_UpdateTextFields_panelSlot ch n a 2 = n / 100 % 10 + 48 ∧
      Menu_UpdateTextFields_panelSlot ch n a 1 = n / 100 / 10 + 48 ∧
      Menu_UpdateTextFields_panelSlot ch n a 0 = 32) ∧
    Menu_UpdateTextFields_panelSlot ch n a 6 = (if ch % 2 = 0 then 86 else 65) := by
  have hdd : n / 10 / 10 = n / 100 := by rw [Nat.div_div_eq_div_mul]
  unfold Menu_UpdateTextFields_panelSlot
  rcases Nat.lt_or_ge (n / 100) 1 with h0 | h1
  · rw [FTCA_eq_of_small n a (by omega)]
    simp only [updInt]
    norm_num
    all_goals omega
  · rcases Nat.lt_or_ge (n / 100) 10 with h2 | h3
    · rw [FTCA_eq_of_one_digit n a (by omega) (by omega)]
      simp only [updInt]
      norm_num
      all_goals omega
    · rw [FTCA_eq_of_two_digits n a (by omega) (by omega)]
      simp only [updInt]
      norm_num
      all_goals omega

/-- Witness for C8 at channel 1 (current, 'A') and value 12.34 V → 1234. -/
theorem measurement_text_format_witness :
    Menu_UpdateTextFields_panelSlot 1 1234 sampleTable 5 = 1234 % 10 + 48 ∧
    Menu_UpdateTextFields_panelSlot 1 1234 sampleTable 4 = 1234 / 10 % 10 + 48 ∧
    Menu_UpdateTextFields_panelSlot 1 1234 sampleTable 3 = 44 ∧
    (1234 / 100 = 0 → Menu_UpdateTextFields_panelSlot 1 1234 sampleTable 2 = 48 ∧
      Menu_UpdateTextFields_panelSlot 1 1234 sampleTable 1 = 32 ∧
      Menu_UpdateTextFields_panelSlot 1 1234 sampleTable 0 = 32) ∧
    (0 < 1234 / 100 → 1234 / 100 < 10 →
      Menu_UpdateTextFields_panelSlot 1 1234 sampleTable 2 = 1234 / 100 + 48 ∧
      Menu_UpdateTextFields_panelSlot 1 1234 sampleTable 1 = 32 ∧
      Menu_UpdateTextFields_panelSlot 1 1234 sampleTable 0 = 32) ∧
    (10 ≤ 1234 / 100 →
      Menu_UpdateTextFields_panelSlot 1 1234 sampleTable 2 = 1234 / 100 % 10 + 48 ∧
      Menu_UpdateTextFields_panelSlot 1 1234 sampleTable 1 = 1234 / 100 / 10 + 48 ∧
      Menu_UpdateTextFields_panelSlot 1 1234 sampleTable 0 = 32) ∧
    Menu_UpdateTextFields_panelSlot 1 1234 sampleTable 6 =
      (if 1 % 2 = 0 then 86 else 65) :=
  measurement_text_format 1 1234 (by decide) sampleTable

/-- C10: for every truncated value whose integer part is below 1000
(`n < 100000`), `Menu_FloatToCharArray` changes no index outside 0-5; in
particular the unit letter at index 6 (and the byte at 7) survives every
measurement refresh of the slot. -/
theorem floatToCharArray_frame (n : Nat) (hn : n < 100000) (a : Int → Nat)
    (j : Int) (hj : j < 0 ∨ 5 < j) :
    Menu_FloatToCharArray n a j = a j := by
  have hb : n / 10 / 10 < 1000 := by omega
  rcases Nat.lt_or_ge (n / 10 / 10) 1 with h0 | h1
  · rw [FTCA_eq_of_small n a (by omega)]
    simp only [updInt]
    split_ifs <;> first | rfl | omega
  · rcases Nat.lt_or_ge (n / 10 / 10) 10 with h2 | h3
    · rw [FTCA_eq_of_one_digit n a (by omega) h2]
      simp only [updInt]
      split_ifs <;> first | rfl | omega
    · rcases Nat.lt_or_ge (n / 10 / 10) 100 with h4 | h5
      · rw [FTCA_eq_of_two_digits n a h3 h4]
        simp only [updInt]
        split_ifs <;> first | rfl | omega
      · rw [FTCA_eq_of_three_digits n a h5 hb]
        simp only [updInt]
        split_ifs <;> first | rfl | omega

/-- Witness for C10 at value 987.65 → 98765 and the unit-letter index 6. -/
theorem floatToCharArray_frame_witness :
    Menu_FloatToCharArray 98765 sampleTable 6 = sampleTable 6 :=
  floatToCharArray_frame 98765 (by decide) sampleTable 6 (Or.inr (by decide))

end Charger

namespace Charger

/-! ## LCD text renderer (LCD.c)

`LCD_UpdateScreen` (LCD.c lines 209-323) renders eight pages; per page it
zeroes the 128-byte `msgBuffer` and OR-composes every text field into it.
The embedding below models one page (`LCD_UpdateScreenRow`): the buffer is
a total function `Nat → Nat` so that the unclamped writes
`msgBuffer[bufferPosition + byteOfChar]` — whose index, with
`bufferPosition` a `uint8_t`, ranges up to 259 — are observable beyond
index 127.  Stores into the `char` buffer truncate with `% 256`; the C
`int` shift arithmetic for the bottom-aligned case, where
`y_end - currentRow*8` can be negative, is computed in `Int`. -/

/-- `FONT_8P` (LCD.c lines 65-107): 42 glyphs of 5 column bytes each,
A-Z, a-umlaut, o-umlaut, '/', digits 0-9, ':', greater-than, less-than. -/
def FONT_8P : List Nat := [
  0x7E, 0x09, 0x09, 0x09, 0x7E,
  0x7F, 0x49, 0x49, 0x49, 0x36,
  0x3E, 0x41, 0x41, 0x41, 0x22,
  0x7F, 0x41, 0x41, 0x41, 0x3E,
  0x7F, 0x49, 0x49, 0x49, 0x41,
  0x7F, 0x09, 0x09, 0x09, 0x01,
  0x3E, 0x41, 0x49, 0x49, 0x7A,
  0x7F, 0x08, 0x08, 0x08, 0x7F,
  0x00, 0x41, 0x7F, 0x41, 0x00,
  0x20, 0x40, 0x41, 0x3F, 0x01,
  0x7F, 0x08, 0x14, 0x22, 0x41,
  0x7F, 0x40, 0x40, 0x40, 0x40,
  0x7F, 0x02, 0x0C, 0x02, 0x7F,
  0x7F, 0x04, 0x08, 0x10, 0x7F,
  0x3E, 0x41, 0x41, 0x41, 0x3E,
  0x7F, 0x09, 0x09, 0x09, 0x06,
  0x3E, 0x41, 0x51, 0x21, 0x5E,
  0x7F, 0x09, 0x19, 0x29, 0x46,
  0x46, 0x49, 0x49, 0x49, 0x31,
  0x01, 0x01, 0x7F, 0x01, 0x01,
  0x3F, 0x40, 0x40, 0x40, 0x3F,
  0x0F, 0x30, 0x40, 0x30, 0x0F,
  0x3F, 0x40, 0x38, 0x40, 0x3F,
  0x63, 0x14, 0x08, 0x14, 0x63,
  0x07, 0x08, 0x70, 0x08, 0x07,
  0x61, 0x51, 0x49, 0x45, 0x43,
  0x20, 0x55, 0x54, 0x55, 0x78,
  0x38, 0x45, 0x44, 0x45, 0x38,
  0x00, 0x60, 0x1C, 0x03, 0x00,
  0x3E, 0x51, 0x49, 0x45, 0x3E,
  0x00, 0x42, 0x7F, 0x40, 0x00,
  0x42, 0x61, 0x51, 0x49, 0x46,
  0x21, 0x41, 0x45, 0x4B, 0x31,
  0x18, 0x14, 0x12, 0x7F, 0x10,
  0x27, 0x45, 0x45, 0x45, 0x39,
  0x3C, 0x4A, 0x49, 0x49, 0x30,
  0x01, 0x71, 0x09, 0x05, 0x03,
  0x36, 0x49, 0x49, 0x49, 0x36,
  0x06, 0x49, 0x49, 0x29, 0x1E,
  0x00, 0x24, 0x00, 0x00, 0x00,
  0x00, 0x22, 0x14, 0x08, 0x00,
  0x00, 0x08, 0x14, 0x22, 0x00 ]

/-- Font lookup; out-of-table indices read as 0 (never reached by the
mapped character codes). -/
def fontAt (i : Nat) : Nat := FONT_8P.getD i 0

/-- `T_TextField` (Common.h): a character string (list of char codes, the
NUL terminator implicit) with its x (column) and y (pixel row) position. -/
structure T_TextField where
  pText : List Nat
  x : Nat
  y : Nat
deriving DecidableEq, Repr

/-- The character-to-font-index chain of `LCD_UpdateScreen` (LCD.c lines
277-289): A-Z; '/', 0-9 and ':' (codes 47-58); 'a' → a-umlaut; 'o' →
o-umlaut; '>'; '<'; everything else 255 = undefined.  The comma/period and
space branches of the chain do not produce a font position and are handled
in `drawChar`. -/
def charPosition (c : Nat) : Nat :=
  if 65 ≤ c ∧ c ≤ 90 then (c - 65) * 5
  else if 47 ≤ c ∧ c ≤ 58 then (c - 19) * 5
  else if c = 97 then 130
  else if c = 111 then 135
  else if c = 62 then 200
  else if c = 60 then 205
  else 255

/-- Pointwise update of the `Nat`-indexed page buffer. -/
def updNat (a : Nat → Nat) (i : Nat) (v : Nat) : Nat → Nat :=
  fun t => if t = i then v else a t

/-- One glyph column byte, shifted for its page: left by `y - row*8` when
the field is top-aligned in this page (`direction == 1`), right by
`8 - (y_end - row*8)` when it spills from the previous page
(`direction == 2`).  LCD.c lines 306-309. -/
def glyphCol (top : Bool) (sTop sBot p j : Nat) : Nat :=
  if top then fontAt (p + j) <<< sTop else fontAt (p + j) >>> sBot

/-- The `for(byteOfChar = 0; byteOfChar < CHARWIDTH; byteOfChar++)` loop
(LCD.c lines 304-310), CHARWIDTH = 5: OR each shifted column byte into
`msgBuffer[bufferPosition + byteOfChar]`, the store truncating to 8 bits.
The index is the plain (int-promoted) sum — this is where writes beyond
index 127 escape the 128-byte buffer. -/
def glyphWrite (top : Bool) (sTop sBot p bp : Nat) (buf : Nat → Nat) : Nat → Nat :=
  let b0 := updNat buf (bp + 0) ((buf (bp + 0) ||| glyphCol top sTop sBot p 0) % 256)
  let b1 := updNat b0 (bp + 1) ((b0 (bp + 1) ||| glyphCol top sTop sBot p 1) % 256)
  let b2 := updNat b1 (bp + 2) ((b1 (bp + 2) ||| glyphCol top sTop sBot p 2) % 256)
  let b3 := updNat b2 (bp + 3) ((b2 (bp + 3) ||| glyphCol top sTop sBot p 3) % 256)
  updNat b3 (bp + 4) ((b3 (bp + 4) ||| glyphCol top sTop sBot p 4) % 256)

/-- The two-column comma/period mark 0xC0, shifted like a glyph column
(LCD.c lines 292-295). -/
def commaCol (top : Bool) (sTop sBot : Nat) : Nat :=
  if top then 192 <<< sTop else 192 >>> sBot

/-- Processing of one character of a text field (LCD.c lines 272-314):
comma/period draw the 0xC0 mark at the cursor and advance by 2; space
advances by `CHARWIDTH + 1 = 6`; a mapped character writes its five
shifted columns and advances by 6; an unmapped character does nothing.
The cursor `bufferPosition` is a `uint8_t`, hence the `% 256`. -/
def drawChar (top : Bool) (sTop sBot c bp : Nat) (buf : Nat → Nat) :
    Nat × (Nat → Nat) :=
  if c = 44 ∨ c = 46 then
    ((bp + 2) % 256, updNat buf bp ((buf bp ||| commaCol top sTop sBot) % 256))
  else if c = 32 then ((bp + 6) % 256, buf)
  else if charPosition c ≠ 255 then
    ((bp + 6) % 256, glyphWrite top sTop sBot (charPosition c) bp buf)
  else (bp, buf)

/-- The `while(*charInText != '\0')` loop over a field's text. -/
def drawText (top : Bool) (sTop sBot : Nat) :
    List Nat → Nat → (Nat → Nat) → (Nat → Nat)
  | [], _, buf => buf
  | c :: cs, bp, buf =>
    let r := drawChar top sTop sBot c bp buf
    drawText top sTop sBot cs r.1 r.2

/-- One text field rendered into one page (LCD.c lines 248-318):
`direction = 1` when the field's top pixel row lies in this page,
`direction = 2` when its bottom edge `y_end = y + 8` (a `uint8_t`) does;
otherwise the field is skipped.  The cursor starts at the field's x. -/
def drawFieldRow (f : T_TextField) (row : Nat) (buf : Nat → Nat) : Nat → Nat :=
  let yEnd := (f.y + 8) % 256
  if 8 * row ≤ f.y ∧ f.y ≤ 8 * row + 7 then
    drawText true (f.y - 8 * row) 0 f.pText (f.x % 256) buf
  else if yEnd + 8 ≥ 8 * row ∧ yEnd ≤ 8 * row + 7 then
    drawText false 0 ((8 - ((yEnd : Int) - 8 * (row : Int))).toNat) f.pText
      (f.x % 256) buf
  else buf

/-- One page of `LCD_UpdateScreen` (LCD.c lines 233-322): clear the page
buffer, then fold every text field into it. -/
def LCD_UpdateScreenRow (fields : List T_TextField) (row : Nat) : Nat → Nat :=
  fields.foldl (fun buf f => drawFieldRow f row buf) (fun _ => 0)

/-- A concrete zero page buffer used by witnesses. -/
def sampleBuf : Nat → Nat :=
  fun _ => 0

end Charger

namespace Charger

/-! ## Renderer lemmas -/

set_option maxRecDepth 4096 in
lemma fontAt_lt_128 (i : Nat) : fontAt i < 128 := by
  have hall : ∀ x ∈ FONT_8P, x < 128 := by decide
  unfold fontAt
  rcases Nat.lt_or_ge i FONT_8P.length with h | h
  · rw [List.getD_eq_getElem FONT_8P 0 h]
    exact hall _ (List.getElem_mem h)
  · rw [List.getD_eq_default FONT_8P 0 (by omega)]
    omega

lemma glyphWrite_zero_eval (top : Bool) (sT sB p x j : Nat) (hj : j < 5) :
    glyphWrite top sT sB p x (fun _ => 0) (x + j) =
      glyphCol top sT sB p j % 256 := by
  interval_cases j <;>
    simp [glyphWrite, updNat]

lemma drawChar_glyph (top : Bool) (sT sB c bp : Nat) (buf : Nat → Nat)
    (h : charPosition c ≠ 255) :
    drawChar top sT sB c bp buf =
      ((bp + 6) % 256, glyphWrite top sT sB (charPosition c) bp buf) := by
  have h44 : c ≠ 44 := by rintro rfl; exact h (by decide)
  have h46 : c ≠ 46 := by rintro rfl; exact h (by decide)
  have h32 : c ≠ 32 := by rintro rfl; exact h (by decide)
  unfold drawChar
  rw [if_neg (by tauto), if_neg h32, if_pos h]

lemma drawText_single (top : Bool) (sT sB c bp : Nat) (buf : Nat → Nat) :
    drawText top sT sB [c] bp buf = (drawChar top sT sB c bp buf).2 := by
  simp [drawText]

set_option maxRecDepth 8192 in
lemma glyph_reconstruct (k g : Nat) (hk1 : 1 ≤ k) (hk2 : k ≤ 7) (hg : g < 256) :
    ((g <<< k) % 256) >>> k ||| ((g >>> (8 - k)) <<< (8 - k)) = g := by
  revert hg
  revert g
  interval_cases k <;> decide

lemma LCD_row_single (f : T_TextField) (row : Nat) :
    LCD_UpdateScreenRow [f] row = drawFieldRow f row (fun _ => 0) := by
  simp [LCD_UpdateScreenRow]

lemma charPosition_unmapped (c : Nat)
    (hA : ¬(65 ≤ c ∧ c ≤ 90)) (hD : ¬(47 ≤ c ∧ c ≤ 58))
    (ha : c ≠ 97) (ho : c ≠ 111) (hgt : c ≠ 62) (hlt : c ≠ 60) :
    charPosition c = 255 := by
  unfold charPosition
  split_ifs <;> omega

lemma drawChar_unsupported (top : Bool) (sT sB c bp : Nat) (buf : Nat → Nat)
    (hcm : c ≠ 44) (hdot : c ≠ 46) (hsp : c ≠ 32) (h255 : charPosition c = 255) :
    drawChar top sT sB c bp buf = (bp, buf) := by
  unfold drawChar
  rw [if_neg (by tauto), if_neg hsp, if_neg (by simp [h255])]

lemma drawText_skip (top : Bool) (sT sB c : Nat)
    (hcm : c ≠ 44) (hdot : c ≠ 46) (hsp : c ≠ 32) (h255 : charPosition c = 255) :
    ∀ (pre post : List Nat) (bp : Nat) (buf : Nat → Nat),
      drawText top sT sB (pre ++ c :: post) bp buf =
        drawText top sT sB (pre ++ post) bp buf := by
  intro pre
  induction pre with
  | nil =>
    intro post bp buf
    simp only [List.nil_append, drawText]
    rw [drawChar_unsupported top sT sB c bp buf hcm hdot hsp h255]
  | cons d ds ih =>
    intro post bp buf
    simp only [List.cons_append, drawText]
    exact ih post _ _

end Charger

namespace Charger

/-! ## Claims about the renderer -/

/-- C5 (code bug in LCD.c): a text field whose x plus rendered width
exceeds 128 is NOT clamped: the glyph 'A' at x = 127 stores its columns at
buffer indices 127-131, so indices 128 and 131 — beyond the 128-byte
`msgBuffer` — receive the font bytes 0x09 and 0x7E instead of staying
untouched.  In the C source this is an out-of-bounds array write. -/
theorem render_writes_out_of_buffer :
    LCD_UpdateScreenRow [⟨[65], 127, 0⟩] 0 128 = 9 ∧
    LCD_UpdateScreenRow [⟨[65], 127, 0⟩] 0 131 = 126 := by
  decide

/-- C6: a single-glyph field at a y with `k = y % 8`, `1 ≤ k ≤ 7`, writes
each glyph column left-shifted by `k` (truncated to 8 bits) into page
`y / 8` and right-shifted by `8 - k` into page `y / 8 + 1`; OR-combining
the inverse-shifted page bytes reconstructs the font column exactly, and
every other page of the rendered field is all zero. -/
theorem glyph_page_split (c x y j r pos : Nat)
    (hc : charPosition c ≠ 255) (hk1 : 1 ≤ y % 8) (hy : y ≤ 55)
    (hx : x < 256) (hj : j < 5) :
    LCD_UpdateScreenRow [⟨[c], x, y⟩] (y / 8) (x + j) =
      (fontAt (charPosition c + j) <<< (y % 8)) % 256 ∧
    LCD_UpdateScreenRow [⟨[c], x, y⟩] (y / 8 + 1) (x + j) =
      fontAt (charPosition c + j) >>> (8 - y % 8) ∧
    (LCD_UpdateScreenRow [⟨[c], x, y⟩] (y / 8) (x + j)) >>> (y % 8) |||
      (LCD_UpdateScreenRow [⟨[c], x, y⟩] (y / 8 + 1) (x + j)) <<< (8 - y % 8) =
      fontAt (charPosition c + j) ∧
    (r ≠ y / 8 → r ≠ y / 8 + 1 → LCD_UpdateScreenRow [⟨[c], x, y⟩] r pos = 0) := by
  have hq : 8 * (y / 8) + y % 8 = y := Nat.div_add_mod y 8
  have hk7 : y % 8 ≤ 7 := by omega
  have hyE : (y + 8) % 256 = y + 8 := Nat.mod_eq_of_lt (by omega)
  have hfont : fontAt (charPosition c + j) < 128 := fontAt_lt_128 _
  have htop : LCD_UpdateScreenRow [⟨[c], x, y⟩] (y / 8) (x + j) =
      (fontAt (charPosition c + j) <<< (y % 8)) % 256 := by
    rw [LCD_row_single]
    unfold drawFieldRow
    dsimp only
    rw [if_pos (by constructor <;> omega)]
    have hs : y - 8 * (y / 8) = y % 8 := by omega
    rw [hs, Nat.mod_eq_of_lt hx, drawText_single,
      drawChar_glyph _ _ _ _ _ _ hc]
    dsimp only
    rw [glyphWrite_zero_eval _ _ _ _ _ _ hj]
    unfold glyphCol
    simp
  have hbot : LCD_UpdateScreenRow [⟨[c], x, y⟩] (y / 8 + 1) (x + j) =
      fontAt (charPosition c + j) >>> (8 - y % 8) := by
    rw [LCD_row_single]
    unfold drawFieldRow
    dsimp only
    rw [hyE]
    rw [if_neg (by omega)]
    rw [if_pos (by constructor <;> omega)]
    have hsB : ((8 : Int) - ((y + 8 : Nat) - 8 * ((y / 8 + 1 : Nat) : Int))).toNat
        = 8 - y % 8 := by
      push_cast
      omega
    rw [hsB, Nat.mod_eq_of_lt hx, drawText_single,
      drawChar_glyph _ _ _ _ _ _ hc]
    dsimp only
    rw [glyphWrite_zero_eval _ _ _ _ _ _ hj]
    unfold glyphCol
    simp only [Bool.false_eq_true, if_false]
    exact Nat.mod_eq_of_lt (by
      have h1 : fontAt (charPosition c + j) >>> (8 - y % 8) ≤
          fontAt (charPosition c + j) := by
        rw [Nat.shiftRight_eq_div_pow]
        exact Nat.div_le_self _ _
      omega)
  refine ⟨htop, hbot, ?_, ?_⟩
  · rw [htop, hbot]
    exact glyph_reconstruct (y % 8) _ hk1 hk7 (by omega)
  · intro hr1 hr2
    rw [LCD_row_single]
    unfold drawFieldRow
    dsimp only
    rw [hyE]
    by_cases hr3 : r = y / 8 + 2
    · subst hr3
      rw [if_neg (by omega), if_pos (by constructor <;> omega)]
      have hsB2 : ((8 : Int) - ((y + 8 : Nat) - 8 * ((y / 8 + 2 : Nat) : Int))).toNat
          = 16 - y % 8 := by
        push_cast
        omega
      rw [hsB2, Nat.mod_eq_of_lt hx, drawText_single,
        drawChar_glyph _ _ _ _ _ _ hc]
      dsimp only
      have hcol : ∀ jj, glyphCol false 0 (16 - y % 8) (charPosition c) jj = 0 := by
        intro jj
        unfold glyphCol
        simp only [Bool.false_eq_true, if_false]
        rw [Nat.shiftRight_eq_div_pow]
        apply Nat.div_eq_of_lt
        calc fontAt (charPosition c + jj) < 128 := fontAt_lt_128 _
          _ = 2 ^ 7 := by norm_num
          _ ≤ 2 ^ (16 - y % 8) := Nat.pow_le_pow_right (by norm_num) (by omega)
      simp [glyphWrite, updNat, hcol]
    · rw [if_neg (by omega), if_neg (by omega)]

/-- Witness for C6: the glyph 'A' at (10, 5), column 1, checked against
pages 0 and 1, with page 3 empty. -/
theorem glyph_page_split_witness :
    LCD_UpdateScreenRow [⟨[65], 10, 5⟩] (5 / 8) (10 + 1) =
      (fontAt (charPosition 65 + 1) <<< (5 % 8)) % 256 ∧
    LCD_UpdateScreenRow [⟨[65], 10, 5⟩] (5 / 8 + 1) (10 + 1) =
      fontAt (charPosition 65 + 1) >>> (8 - 5 % 8) ∧
    (LCD_UpdateScreenRow [⟨[65], 10, 5⟩] (5 / 8) (10 + 1)) >>> (5 % 8) |||
      (LCD_UpdateScreenRow [⟨[65], 10, 5⟩] (5 / 8 + 1) (10 + 1)) <<< (8 - 5 % 8) =
      fontAt (charPosition 65 + 1) ∧
    (3 ≠ 5 / 8 → 3 ≠ 5 / 8 + 1 → LCD_UpdateScreenRow [⟨[65], 10, 5⟩] 3 0 = 0) :=
  glyph_page_split 65 10 5 1 3 0 (by decide) (by decide) (by decide)
    (by decide) (by decide)

/-- C7: a character that is not A-Z, 'a', 'o', '/', a digit, ':', '>',
'<', ',', '.' or space draws nothing and does not advance the column
cursor: the rendered page bytes equal those of the same text with the
character deleted, for every field position, page, starting buffer and
buffer index. -/
theorem unsupported_char_invisible (pre post : List Nat) (c x y row pos : Nat)
    (buf : Nat → Nat)
    (hA : ¬(65 ≤ c ∧ c ≤ 90)) (hD : ¬(47 ≤ c ∧ c ≤ 58))
    (ha : c ≠ 97) (ho : c ≠ 111) (hgt : c ≠ 62) (hlt : c ≠ 60)
    (hcm : c ≠ 44) (hdot : c ≠ 46) (hsp : c ≠ 32) :
    drawFieldRow ⟨pre ++ c :: post, x, y⟩ row buf pos =
      drawFieldRow ⟨pre ++ post, x, y⟩ row buf pos ∧
    LCD_UpdateScreenRow [⟨pre ++ c :: post, x, y⟩] row pos =
      LCD_UpdateScreenRow [⟨pre ++ post, x, y⟩] row pos := by
  have h255 : charPosition c = 255 := charPosition_unmapped c hA hD ha ho hgt hlt
  have hdf : ∀ b : Nat → Nat, drawFieldRow ⟨pre ++ c :: post, x, y⟩ row b =
      drawFieldRow ⟨pre ++ post, x, y⟩ row b := by
    intro b
    unfold drawFieldRow
    dsimp only
    split_ifs with h1 h2
    · exact drawText_skip _ _ _ c hcm hdot hsp h255 pre post _ b
    · exact drawText_skip _ _ _ c hcm hdot hsp h255 pre post _ b
    · rfl
  refine ⟨by rw [hdf buf], ?_⟩
  rw [LCD_row_single, LCD_row_single, hdf]

/-- Witness for C7: '?' (63) between 'A' and 'B' at the origin, page 0,
index 6 (the first column of the following glyph). -/
theorem unsupported_char_invisible_witness :
    drawFieldRow ⟨[65] ++ 63 :: [66], 0, 0⟩ 0 sampleBuf 6 =
      drawFieldRow ⟨[65] ++ [66], 0, 0⟩ 0 sampleBuf 6 ∧
    LCD_UpdateScreenRow [⟨[65] ++ 63 :: [66], 0, 0⟩] 0 6 =
      LCD_UpdateScreenRow [⟨[65] ++ [66], 0, 0⟩] 0 6 :=
  unsupported_char_invisible [65] [66] 63 0 0 0 6 sampleBuf
    (by decide) (by decide) (by decide) (by decide) (by decide) (by decide)
    (by decide) (by decide) (by decide)

end Charger
